import Mathlib

/-!
Verification of the fusionchain treasury Ethereum transaction parser
(`src/application/x/treasury/types/wallet_ethereum.go`) and of the policy
envelope / Blackbird policy subsystem (whose implementation is exercised by
`src/blockchain/x/policy/types/policy_test.go`).

The Go code is shallowly embedded: machine integers become `Nat` with explicit
`% 2^64` where Go truncates (`big.Int.Uint64`), byte slices become `List Nat`,
and fallible Go functions return an explicit outcome type.  The result of the
external go-ethereum call `tx.UnmarshalBinary` is taken as an input
(`DecodeResult`), and the external EIP-155 signer hash is a function parameter
`hashFn`, since both live in the go-ethereum library, outside this repository.
-/

/-- Big-endian interpretation of a byte sequence, as `big.Int.SetBytes` does. -/
def beNat (bs : List Nat) : Nat := bs.foldl (fun acc b => acc * 256 + b) 0

/-- The fields of a decoded Ethereum transaction that the parser reads:
`tx.To()` (a possibly-nil address pointer), `tx.Value()` (a non-negative
arbitrary-precision integer) and `tx.Data()` (the payload bytes). -/
structure EthTx where
  To : Option (List Nat)
  Value : Nat
  Data : List Nat
  deriving DecidableEq, Repr

/-- Result of the external `tx.UnmarshalBinary(b)` call on the raw bytes. -/
inductive DecodeResult
  | ok (tx : EthTx)
  | fail (msg : String)
  deriving DecidableEq, Repr

/-- The distinct parse errors produced by `ParseEthereumTransaction` and
`parseERC20Transfer` (one constructor per distinct `fmt.Errorf` message). -/
inductive ParseErr
  | bothEmpty
  | bothSet
  | shortPayload
  | selectorMismatch
  | malformedAddress
  deriving DecidableEq, Repr

/-- Outcome of a Go function that can return a value, return an error, or
panic (raise out-of-band instead of returning). -/
inductive Outcome (α : Type)
  | ok (a : α)
  | err (e : ParseErr)
  | panicked (msg : String)
  deriving DecidableEq, Repr

/-- Go struct `EthereumTransfer`: destination, amount, optional token
contract (nil for a native ETH transfer), and the bytes to sign. -/
structure EthereumTransfer where
  To : Option (List Nat)
  Amount : Nat
  Contract : Option (List Nat)
  DataForSigning : List Nat
  deriving DecidableEq, Repr

/-- The 4-byte `transfer(address,uint256)` selector `0xa9059cbb`. -/
def transferSelector : List Nat := [0xa9, 0x05, 0x9c, 0xbb]

/-- Go `parseERC20Transfer(chainID, tx)`: checks, in order, payload length
`≥ 4+32+32`, the 4-byte selector, and the 12 zero bytes padding the recipient
word; on success builds the token transfer. -/
def parseERC20Transfer (hashFn : Nat → EthTx → List Nat) (chainID : Nat)
    (tx : EthTx) : Outcome EthereumTransfer :=
  let d := tx.Data
  if d.length < 4 + 32 + 32 then
    .err .shortPayload
  else
    let method := d.take 4
    let recipient := (d.drop 4).take 32
    let amt := (d.drop (4 + 32)).take 32
    if method ≠ transferSelector then
      .err .selectorMismatch
    else if recipient.take 12 ≠ List.replicate 12 0 then
      .err .malformedAddress
    else
      .ok { Contract := tx.To
            To := some (recipient.drop 12)
            Amount := beNat amt
            DataForSigning := hashFn chainID tx }

/-- Go `ParseEthereumTransaction(chainID, b)`.  A decode failure is a
`panic(err)` in the source, embedded as the `panicked` outcome.  The
mutual-exclusivity checks and the native/token classification test
`value.Uint64()`, i.e. only the low 64 bits of the declared value. -/
def ParseEthereumTransaction (hashFn : Nat → EthTx → List Nat) (chainID : Nat)
    (d : DecodeResult) : Outcome EthereumTransfer :=
  match d with
  | .fail msg => .panicked msg
  | .ok tx =>
    if tx.Value % 2 ^ 64 = 0 ∧ tx.Data = [] then
      .err .bothEmpty
    else if tx.Value % 2 ^ 64 ≠ 0 ∧ tx.Data ≠ [] then
      .err .bothSet
    else if tx.Value % 2 ^ 64 > 0 then
      .ok { To := tx.To
            Amount := tx.Value
            Contract := none
            DataForSigning := hashFn chainID tx }
    else
      parseERC20Transfer hashFn chainID tx

/-- Go struct `Transfer` as built by `EthereumWallet.ParseTx`. -/
structure Transfer where
  To : List Nat
  Amount : Nat
  CoinIdentifier : List Nat
  DataForSigning : List Nat
  deriving DecidableEq, Repr

/-- The bytes of the fixed chain-currency tag `"ETH/"`. -/
def ethCoinTag : List Nat := [0x45, 0x54, 0x48, 0x2f]

/-- Go `EthereumWallet.ParseTx(b)`: parses, then builds the coin identifier
(`"ETH/"` plus the contract bytes when a contract is present) and the
`Transfer`.  `tx.To.Bytes()` dereferences the `To` pointer, so a nil `To`
on the success path is a nil-pointer panic. -/
def ParseTx (hashFn : Nat → EthTx → List Nat) (chainID : Nat)
    (d : DecodeResult) : Outcome Transfer :=
  match ParseEthereumTransaction hashFn chainID d with
  | .panicked msg => .panicked msg
  | .err e => .err e
  | .ok t =>
    let coinId := ethCoinTag ++ (match t.Contract with
      | some c => c
      | none => [])
    match t.To with
    | none => .panicked "runtime error: invalid memory address or nil pointer dereference"
    | some a =>
      .ok { To := a
            Amount := t.Amount
            CoinIdentifier := coinId
            DataForSigning := t.DataForSigning }



/-!
Policy subsystem.  The implementations of `UnpackPolicy`, `BlackbirdPolicy.Validate`
and `BlackbirdPolicy.Verify` are not under `src/` — only their test,
`src/blockchain/x/policy/types/policy_test.go`, is — so they are modelled from
the spec (sections 4.3–4.5 and the data model).
-/

/-- Modelled from the spec: the approval-expression blob is "a binary encoding
of a boolean/threshold tree whose leaves reference participants"; the blob is
modelled as the decoded tree itself (the byte encoding is external).  Boolean
connectives suffice for every expression the spec mentions. -/
inductive BBExpr
  | leaf (abbr : String)
  | and (l r : BBExpr)
  | or (l r : BBExpr)
  deriving DecidableEq, Repr

/-- Modelled from the spec: `Validate` "parses the expression blob only far
enough to enumerate every referenced participant abbreviation". -/
def BBExpr.referenced : BBExpr → List String
  | .leaf a => [a]
  | .and l r => l.referenced ++ r.referenced
  | .or l r => l.referenced ++ r.referenced

/-- Modelled from the spec: the external ApprovalEvaluator substitutes "each
abbreviation referenced at each leaf with approved/not-approved per
membership in the approver set" and evaluates the expression. -/
def BBExpr.evalWith (approvers : List String) : BBExpr → Bool
  | .leaf a => approvers.contains a
  | .and l r => l.evalWith approvers && r.evalWith approvers
  | .or l r => l.evalWith approvers || r.evalWith approvers

/-- Go struct `BlackbirdPolicyParticipant` (abbreviation → address entry). -/
structure BlackbirdPolicyParticipant where
  Abbreviation : String
  Address : String
  deriving DecidableEq, Repr

/-- Go struct `BlackbirdPolicy`: the expression blob plus the ordered
participant directory. -/
structure BlackbirdPolicy where
  Data : BBExpr
  Participants : List BlackbirdPolicyParticipant
  deriving DecidableEq, Repr

instance {ε α : Type} [DecidableEq ε] [DecidableEq α] : DecidableEq (Except ε α)
  | .ok a, .ok b =>
    if h : a = b then .isTrue (by rw [h])
    else .isFalse (fun he => by cases he; exact h rfl)
  | .ok _, .error _ => .isFalse (fun he => by cases he)
  | .error _, .ok _ => .isFalse (fun he => by cases he)
  | .error e, .error f =>
    if h : e = f then .isTrue (by rw [h])
    else .isFalse (fun he => by cases he; exact h rfl)

/-- The distinct policy-subsystem errors named by the spec. -/
inductive PolicyErr
  | emptyParticipants
  | missingParticipant (abbr : String)
  | policyNotSatisfied
  | unknownPolicyType
  deriving DecidableEq, Repr

/-- Modelled from the spec: `Validate` "fails with EmptyParticipants if the
directory is empty", "fails with MissingParticipant (naming the unresolved
abbreviation(s)) if the expression references one absent from the directory",
and "succeeds even when the directory contains entries the expression never
references". -/
def BlackbirdPolicy.Validate (p : BlackbirdPolicy) : Except PolicyErr Unit :=
  if p.Participants = [] then
    .error .emptyParticipants
  else
    match p.Data.referenced.filter
        (fun a => !((p.Participants.map BlackbirdPolicyParticipant.Abbreviation).contains a)) with
    | [] => .ok ()
    | a :: _ => .error (.missingParticipant a)

/-- Modelled from the spec: `Verify` "delegates to the external
ApprovalEvaluator … and succeeds only if the full expression evaluates true;
otherwise fails with PolicyNotSatisfied"; the payload is passed through
opaquely to the evaluator. -/
def BlackbirdPolicy.Verify (p : BlackbirdPolicy) (approvers : List String)
    (payload : List Nat) : Except PolicyErr Unit :=
  let _ := payload
  if p.Data.evalWith approvers then .ok () else .error .policyNotSatisfied

/-- Modelled from the spec: the polymorphic payload slot of the envelope, "a closed,
tagged-variant type".  `genesisState` stands for a packed message (the
`GenesisState` of the test) that does not satisfy the PolicyVariant capability. -/
inductive PackedValue
  | blackbird (p : BlackbirdPolicy)
  | genesisState
  deriving DecidableEq, Repr

set_option linter.dupNamespace false in
/-- Go struct `Policy`: the envelope `{Id, Name, Policy(payload)}`. -/
structure Policy where
  Id : Nat
  Name : String
  Policy : PackedValue
  deriving DecidableEq, Repr

/-- Modelled from the spec: `Pack(variant)` places a conforming variant into
the payload slot with its type tag. -/
def Pack (v : BlackbirdPolicy) : PackedValue := .blackbird v

/-- Modelled from the spec: `Unpack(envelope)` "resolves the tag against a
closed registry of known variants; fails with UnknownPolicyType when the tag is
unregistered or the stored payload does not satisfy the PolicyVariant
capability". -/
def UnpackPolicy (p : Policy) : Except PolicyErr BlackbirdPolicy :=
  match p.Policy with
  | .blackbird bp => .ok bp
  | .genesisState => .error .unknownPolicyType



/-! Helper lemmas on the parser, shared by several claim theorems. -/

/-- Slicing `selector ++ recWord ++ amtWord` recovers the three components. -/
theorem erc20_slices (recWord amtWord : List Nat)
    (h1 : recWord.length = 32) (h2 : amtWord.length = 32) :
    (transferSelector ++ recWord ++ amtWord).take 4 = transferSelector ∧
    ((transferSelector ++ recWord ++ amtWord).drop 4).take 32 = recWord ∧
    ((transferSelector ++ recWord ++ amtWord).drop (4 + 32)).take 32 = amtWord := by
  have hsel : transferSelector.length = 4 := rfl
  refine ⟨?_, ?_, ?_⟩
  · rw [List.append_assoc, ← hsel, List.take_left]
  · rw [List.append_assoc, ← hsel, List.drop_left, ← h1, List.take_left]
  · rw [show (4 + 32 : Nat) = (transferSelector ++ recWord).length by
        simp [transferSelector, h1], List.drop_left, ← h2, List.take_length]

/-- `parseERC20Transfer` succeeds on a well-formed transfer payload. -/
theorem parseERC20Transfer_ok (hashFn : Nat → EthTx → List Nat) (chainID : Nat)
    (tx : EthTx) (recWord amtWord : List Nat)
    (h1 : recWord.length = 32) (h2 : amtWord.length = 32)
    (hz : recWord.take 12 = List.replicate 12 0)
    (hd : tx.Data = transferSelector ++ recWord ++ amtWord) :
    parseERC20Transfer hashFn chainID tx
      = .ok { Contract := tx.To, To := some (recWord.drop 12),
              Amount := beNat amtWord, DataForSigning := hashFn chainID tx } := by
  obtain ⟨hs, hr, ha⟩ := erc20_slices recWord amtWord h1 h2
  have hlen : tx.Data.length = 68 := by
    simp [hd, transferSelector, h1, h2]
  unfold parseERC20Transfer
  rw [if_neg (by rw [hlen]; norm_num)]
  rw [hd, hs, hr, ha]
  rw [if_neg (by simp), if_neg (by rw [hz]; simp)]

/-- `ParseEthereumTransaction` with zero low-64 value and non-empty payload
delegates to `parseERC20Transfer`. -/
theorem parse_delegates_erc20 (hashFn : Nat → EthTx → List Nat) (chainID : Nat)
    (tx : EthTx) (hv : tx.Value % 2 ^ 64 = 0) (hd : tx.Data ≠ []) :
    ParseEthereumTransaction hashFn chainID (.ok tx)
      = parseERC20Transfer hashFn chainID tx := by
  simp only [ParseEthereumTransaction]
  rw [if_neg (fun h => hd h.2), if_neg (fun h => h.1 hv),
    if_neg (by omega)]

/-- `ParseEthereumTransaction` on nonzero low-64 value and empty payload
returns the native transfer. -/
theorem parse_native_ok (hashFn : Nat → EthTx → List Nat) (chainID : Nat)
    (tx : EthTx) (hv : tx.Value % 2 ^ 64 ≠ 0) (hd : tx.Data = []) :
    ParseEthereumTransaction hashFn chainID (.ok tx)
      = .ok { To := tx.To, Amount := tx.Value, Contract := none,
              DataForSigning := hashFn chainID tx } := by
  simp only [ParseEthereumTransaction]
  rw [if_neg (fun h => hv h.1), if_neg (fun h => h.2 hd),
    if_pos (Nat.pos_of_ne_zero hv)]

/-- C1 (counterexample): a declared value of `2^64` is greater than zero and
the payload is empty, yet `ParseTx` does not succeed with a native transfer —
it fails with the both-empty shape error, because classification reads only
`value.Uint64()`. -/
theorem c1_counterexample :
    (2 ^ 64 : Nat) > 0 ∧
    ParseTx (fun _ _ => []) 1
        (.ok { To := some (List.replicate 20 7), Value := 2 ^ 64, Data := [] })
      = .err .bothEmpty ∧
    ParseTx (fun _ _ => []) 1
        (.ok { To := some (List.replicate 20 7), Value := 2 ^ 64, Data := [] })
      ≠ .ok { To := List.replicate 20 7, Amount := 2 ^ 64,
              CoinIdentifier := ethCoinTag, DataForSigning := [] } :=
  ⟨by norm_num, by decide, by decide⟩

/-- C1 (amended): for every decodable transaction with a present declared
recipient, a declared value whose low 64 bits are nonzero, and an empty
payload, `ParseTx` succeeds with a native transfer: `Amount` is the declared
value, `To` is the declared recipient, and `CoinIdentifier` is the
chain-currency tag `"ETH/"` with no contract suffix. -/
theorem c1_native_transfer (hashFn : Nat → EthTx → List Nat) (chainID : Nat)
    (tx : EthTx) (a : List Nat)
    (hto : tx.To = some a) (hv : tx.Value % 2 ^ 64 ≠ 0) (hd : tx.Data = []) :
    ParseTx hashFn chainID (.ok tx)
      = .ok { To := a, Amount := tx.Value, CoinIdentifier := ethCoinTag,
              DataForSigning := hashFn chainID tx } := by
  unfold ParseTx
  rw [parse_native_ok hashFn chainID tx hv hd]
  simp [hto]

/-- C1 (witness): the amended theorem applied to a concrete transaction with
value 5 and empty payload. -/
theorem c1_native_transfer_witness :
    ParseTx (fun _ _ => []) 1
        (.ok { To := some (List.replicate 20 7), Value := 5, Data := [] })
      = .ok { To := List.replicate 20 7, Amount := 5,
              CoinIdentifier := ethCoinTag, DataForSigning := [] } :=
  c1_native_transfer (fun _ _ => []) 1
    { To := some (List.replicate 20 7), Value := 5, Data := [] }
    (List.replicate 20 7) rfl (by decide) rfl

/-- C2: for a transaction with zero declared value whose payload is exactly
the `0xa9059cbb` selector, a 32-byte recipient word with 12 leading zero
bytes, and a 32-byte amount word, `ParseTx` returns a token transfer: `To` is
the low 20 bytes of the recipient word, `Amount` is the big-endian integer of
the amount word, and `CoinIdentifier` is `"ETH/"` followed by the declared
recipient (the token contract). -/
theorem c2_token_transfer (hashFn : Nat → EthTx → List Nat) (chainID : Nat)
    (c recWord amtWord : List Nat)
    (h1 : recWord.length = 32) (h2 : amtWord.length = 32)
    (hz : recWord.take 12 = List.replicate 12 0) :
    ParseTx hashFn chainID
        (.ok { To := some c, Value := 0,
               Data := transferSelector ++ recWord ++ amtWord })
      = .ok { To := recWord.drop 12, Amount := beNat amtWord,
              CoinIdentifier := ethCoinTag ++ c,
              DataForSigning := hashFn chainID
                { To := some c, Value := 0,
                  Data := transferSelector ++ recWord ++ amtWord } } := by
  unfold ParseTx
  rw [parse_delegates_erc20 _ _ _ (by simp) (by simp [transferSelector]),
    parseERC20Transfer_ok _ _ _ recWord amtWord h1 h2 hz rfl]

/-- C2 (witness): the theorem applied to a concrete 68-byte payload. -/
theorem c2_token_transfer_witness :
    ParseTx (fun _ _ => []) 1
        (.ok { To := some (List.replicate 20 9), Value := 0,
               Data := transferSelector ++ List.replicate 32 0 ++ List.replicate 32 1 })
      = .ok { To := (List.replicate 32 0).drop 12,
              Amount := beNat (List.replicate 32 1),
              CoinIdentifier := ethCoinTag ++ List.replicate 20 9,
              DataForSigning := [] } :=
  c2_token_transfer (fun _ _ => []) 1 (List.replicate 20 9)
    (List.replicate 32 0) (List.replicate 32 1) (by decide) (by decide) (by decide)

/-- C3: on a decode failure of the raw bytes, `ParseEthereumTransaction` (and
hence `ParseTx`) raises the error out-of-band — the Go source calls
`panic(err)` — instead of returning it to the immediate caller as the spec
requires. -/
theorem c3_decode_failure_panics (hashFn : Nat → EthTx → List Nat)
    (chainID : Nat) (msg : String) :
    ParseEthereumTransaction hashFn chainID (.fail msg) = .panicked msg ∧
    ParseTx hashFn chainID (.fail msg) = .panicked msg :=
  ⟨rfl, rfl⟩

/-- C4 (counterexample): a declared value of `2^64` is greater than zero and
the ERC-20 payload is non-empty, yet parsing does not fail with a shape
violation — it succeeds as a token transfer, because the both-set check reads
only `value.Uint64()`. -/
theorem c4_counterexample :
    (2 ^ 64 : Nat) > 0 ∧
    (transferSelector ++ List.replicate 32 0 ++ List.replicate 32 0 : List Nat) ≠ [] ∧
    ParseEthereumTransaction (fun _ _ => []) 1
        (.ok { To := some (List.replicate 20 7), Value := 2 ^ 64,
               Data := transferSelector ++ List.replicate 32 0 ++ List.replicate 32 0 })
      = .ok { To := some (List.replicate 20 0), Amount := 0,
              Contract := some (List.replicate 20 7), DataForSigning := [] } ∧
    ParseEthereumTransaction (fun _ _ => []) 1
        (.ok { To := some (List.replicate 20 7), Value := 2 ^ 64,
               Data := transferSelector ++ List.replicate 32 0 ++ List.replicate 32 0 })
      ≠ .err .bothSet :=
  ⟨by norm_num, by decide, by decide, by decide⟩

/-- C4 (amended): a transaction whose declared value has nonzero low 64 bits
and whose payload is non-empty fails with the both-set error; a transaction
with zero declared value and empty payload fails with the both-empty error;
and the two errors are distinct. -/
theorem c4_shape_violations (hashFn : Nat → EthTx → List Nat) (chainID : Nat)
    (tx : EthTx) :
    (tx.Value % 2 ^ 64 ≠ 0 → tx.Data ≠ [] →
      ParseEthereumTransaction hashFn chainID (.ok tx) = .err .bothSet) ∧
    (tx.Value = 0 → tx.Data = [] →
      ParseEthereumTransaction hashFn chainID (.ok tx) = .err .bothEmpty) ∧
    ParseErr.bothSet ≠ ParseErr.bothEmpty := by
  refine ⟨fun hv hd => ?_, fun hv hd => ?_, by decide⟩
  · simp only [ParseEthereumTransaction]
    rw [if_neg (fun h => hv h.1), if_pos ⟨hv, hd⟩]
  · simp only [ParseEthereumTransaction]
    rw [if_pos ⟨by simp [hv], hd⟩]

/-- C4 (witness): the amended theorem applied to a concrete over-specified
transaction (value 5, one payload byte). -/
theorem c4_shape_violations_witness :
    ParseEthereumTransaction (fun _ _ => []) 1
        (.ok { To := none, Value := 5, Data := [0] })
      = .err .bothSet :=
  (c4_shape_violations (fun _ _ => []) 1
    { To := none, Value := 5, Data := [0] }).1 (by decide) (by decide)

/-- C8: ERC-20 detection runs on a zero-low-64-value, non-empty payload and
performs its checks in order with distinct errors: short payload, then
selector mismatch, then malformed (non-zero-padded) recipient address. -/
theorem c8_erc20_error_order (hashFn : Nat → EthTx → List Nat) (chainID : Nat)
    (tx : EthTx) :
    (tx.Value % 2 ^ 64 = 0 → tx.Data ≠ [] →
      ParseEthereumTransaction hashFn chainID (.ok tx)
        = parseERC20Transfer hashFn chainID tx) ∧
    (tx.Data.length < 4 + 32 + 32 →
      parseERC20Transfer hashFn chainID tx = .err .shortPayload) ∧
    (¬ tx.Data.length < 4 + 32 + 32 → tx.Data.take 4 ≠ transferSelector →
      parseERC20Transfer hashFn chainID tx = .err .selectorMismatch) ∧
    (¬ tx.Data.length < 4 + 32 + 32 → tx.Data.take 4 = transferSelector →
      ((tx.Data.drop 4).take 32).take 12 ≠ List.replicate 12 0 →
      parseERC20Transfer hashFn chainID tx = .err .malformedAddress) ∧
    (ParseErr.shortPayload ≠ ParseErr.selectorMismatch ∧
      ParseErr.shortPayload ≠ ParseErr.malformedAddress ∧
      ParseErr.selectorMismatch ≠ ParseErr.malformedAddress) := by
  refine ⟨parse_delegates_erc20 hashFn chainID tx, fun hlen => ?_,
    fun hlen hsel => ?_, fun hlen hsel hrec => ?_, by decide, by decide, by decide⟩
  · simp only [parseERC20Transfer]
    rw [if_pos hlen]
  · simp only [parseERC20Transfer]
    rw [if_neg hlen, if_pos hsel]
  · simp only [parseERC20Transfer]
    rw [if_neg hlen, if_neg (fun h => h hsel), if_pos hrec]

/-- C8 (witness): the short-payload case at a concrete 3-byte payload. -/
theorem c8_erc20_error_order_witness :
    parseERC20Transfer (fun _ _ => []) 1 { To := none, Value := 0, Data := [1, 2, 3] }
      = .err .shortPayload :=
  (c8_erc20_error_order (fun _ _ => []) 1
    { To := none, Value := 0, Data := [1, 2, 3] }).2.1 (by decide)

/-- C9: parsing is deterministic — identical raw inputs (the same decode
result, chain identifier and hash function) yield identical outcomes, for
both `ParseTx` and `ParseEthereumTransaction`. -/
theorem c9_deterministic (hashFn : Nat → EthTx → List Nat) (chainID : Nat)
    (b1 b2 : DecodeResult) (h : b1 = b2) :
    ParseTx hashFn chainID b1 = ParseTx hashFn chainID b2 ∧
    ParseEthereumTransaction hashFn chainID b1
      = ParseEthereumTransaction hashFn chainID b2 := by
  rw [h]
  exact ⟨rfl, rfl⟩

/-- C9 (witness): determinism at a concrete input. -/
theorem c9_deterministic_witness :
    ParseTx (fun _ _ => []) 1 (.ok { To := none, Value := 0, Data := [] })
      = ParseTx (fun _ _ => []) 1 (.ok { To := none, Value := 0, Data := [] }) :=
  (c9_deterministic (fun _ _ => []) 1 _ _ rfl).1

/-- C10: classification reads only the low 64 bits of the declared value —
for a nonzero value that is a multiple of `2^64`, an empty payload fails with
the both-empty error and a well-formed ERC-20 payload succeeds as a token
transfer, instead of being classified as a native transfer. -/
theorem c10_low64_truncation (hashFn : Nat → EthTx → List Nat) (chainID : Nat)
    (v : Nat) (dest : Option (List Nat)) (recWord amtWord : List Nat)
    (hv0 : v % 2 ^ 64 = 0) (_hvpos : v ≠ 0)
    (h1 : recWord.length = 32) (h2 : amtWord.length = 32)
    (hz : recWord.take 12 = List.replicate 12 0) :
    ParseEthereumTransaction hashFn chainID
        (.ok { To := dest, Value := v, Data := [] }) = .err .bothEmpty ∧
    ParseEthereumTransaction hashFn chainID
        (.ok { To := dest, Value := v,
               Data := transferSelector ++ recWord ++ amtWord })
      = .ok { Contract := dest, To := some (recWord.drop 12),
              Amount := beNat amtWord,
              DataForSigning := hashFn chainID
                { To := dest, Value := v,
                  Data := transferSelector ++ recWord ++ amtWord } } := by
  constructor
  · have hv0' : v % 18446744073709551616 = 0 := hv0
    simp [ParseEthereumTransaction, hv0']
  · rw [parse_delegates_erc20 _ _ _ hv0 (by simp [transferSelector]),
      parseERC20Transfer_ok _ _ _ recWord amtWord h1 h2 hz rfl]

/-- C10 (witness): the empty-payload conjunct at the concrete value `2^64`. -/
theorem c10_low64_truncation_witness :
    ParseEthereumTransaction (fun _ _ => []) 1
        (.ok { To := some (List.replicate 20 7), Value := 2 ^ 64, Data := [] })
      = .err .bothEmpty :=
  (c10_low64_truncation (fun _ _ => []) 1 (2 ^ 64) (some (List.replicate 20 7))
    (List.replicate 32 0) (List.replicate 32 0) (by norm_num) (by norm_num)
    (by decide) (by decide) (by decide)).1

/-- The abbreviations present in the participant directory of a policy. -/
def BlackbirdPolicy.abbrevs (p : BlackbirdPolicy) : List String :=
  p.Participants.map BlackbirdPolicyParticipant.Abbreviation

/-- C5: `Validate` succeeds iff the participant directory is non-empty and
every abbreviation referenced by the expression resolves to a directory
entry; an empty directory fails with EmptyParticipants regardless of the
expression; a referenced-but-absent abbreviation makes it fail with
MissingParticipant naming an unresolved abbreviation; entries the expression
never references never cause failure (they do not appear in the success
condition). -/
theorem c5_validate_characterization (p : BlackbirdPolicy) :
    (p.Validate = .ok () ↔
      p.Participants ≠ [] ∧ ∀ a ∈ p.Data.referenced, a ∈ p.abbrevs) ∧
    (p.Participants = [] → p.Validate = .error .emptyParticipants) ∧
    (p.Participants ≠ [] →
      ∀ a ∈ p.Data.referenced, a ∉ p.abbrevs →
        ∃ b ∈ p.Data.referenced, b ∉ p.abbrevs ∧
          p.Validate = .error (.missingParticipant b)) := by
  by_cases hP : p.Participants = []
  · refine ⟨?_, fun _ => by simp [BlackbirdPolicy.Validate, hP],
      fun h => absurd hP h⟩
    simp [BlackbirdPolicy.Validate, hP]
  · have hval : p.Validate = (match p.Data.referenced.filter
        (fun a => !(p.abbrevs.contains a)) with
      | [] => Except.ok ()
      | a :: _ => Except.error (.missingParticipant a)) := by
      simp [BlackbirdPolicy.Validate, hP, BlackbirdPolicy.abbrevs]
    rcases hf : p.Data.referenced.filter (fun a => !(p.abbrevs.contains a))
      with _ | ⟨b, t⟩
    · rw [hf] at hval
      have hall : ∀ a ∈ p.Data.referenced, a ∈ p.abbrevs := by
        intro a ha
        have := (List.filter_eq_nil_iff.mp hf) a ha
        simpa [List.elem_iff] using this
      refine ⟨?_, fun h => absurd h hP,
        fun _ a ha hmem => absurd (hall a ha) hmem⟩
      rw [hval]
      exact ⟨fun _ => ⟨hP, hall⟩, fun _ => rfl⟩
    · rw [hf] at hval
      have hbmem : b ∈ p.Data.referenced.filter (fun a => !(p.abbrevs.contains a)) := by
        rw [hf]
        exact List.mem_cons_self b t
      have hb := List.mem_filter.mp hbmem
      have hbnot : b ∉ p.abbrevs := by
        have := hb.2
        simpa [List.elem_iff] using this
      refine ⟨?_, fun h => absurd h hP,
        fun _ a ha hmem => ⟨b, hb.1, hbnot, hval⟩⟩
      rw [hval]
      constructor
      · intro h
        cases h
      · rintro ⟨-, hall⟩
        exact absurd (hall b hb.1) hbnot

/-- C5 (witness): the characterization applied to the policy of the test
(expression over `foo`,`bar`; directory `foo`,`bar`,`unused`): `Validate`
succeeds even with the unreferenced extra entry. -/
theorem c5_validate_characterization_witness :
    ({ Data := .or (.leaf "foo") (.leaf "bar"),
       Participants := [⟨"foo", "qredoXXXXXXX"⟩, ⟨"bar", "qredoYYYYYYY"⟩,
         ⟨"unused", "qredoZZZZZZZ"⟩] } : BlackbirdPolicy).Validate = .ok () :=
  (c5_validate_characterization
    { Data := .or (.leaf "foo") (.leaf "bar"),
      Participants := [⟨"foo", "qredoXXXXXXX"⟩, ⟨"bar", "qredoYYYYYYY"⟩,
        ⟨"unused", "qredoZZZZZZZ"⟩] }).1.mpr (by decide)

/-- C6: unpacking a packed conforming variant succeeds with a variant whose
`Validate` and `Verify` agree with those of the original everywhere; unpacking a
packed payload that does not satisfy the policy capability (any non-blackbird
payload, such as the `GenesisState` of the test) fails with UnknownPolicyType. -/
theorem c6_pack_unpack_roundtrip (i : Nat) (n : String) (v : BlackbirdPolicy) :
    UnpackPolicy { Id := i, Name := n, Policy := Pack v } = .ok v ∧
    (∀ w, UnpackPolicy { Id := i, Name := n, Policy := Pack v } = .ok w →
      w.Validate = v.Validate ∧ ∀ s pl, w.Verify s pl = v.Verify s pl) ∧
    (∀ pv : PackedValue, (∀ bp, pv ≠ .blackbird bp) →
      UnpackPolicy { Id := i, Name := n, Policy := pv }
        = .error .unknownPolicyType) := by
  refine ⟨rfl, fun w hw => ?_, fun pv hpv => ?_⟩
  · cases hw
    exact ⟨rfl, fun s pl => rfl⟩
  · cases pv with
    | blackbird bp => exact absurd rfl (hpv bp)
    | genesisState => rfl

/-- C6 (witness): the round-trip at the concrete policy of the test, and the
failure at a packed `GenesisState`. -/
theorem c6_pack_unpack_roundtrip_witness :
    UnpackPolicy { Id := 1, Name := "test policy",
                   Policy := Pack { Data := .or (.leaf "foo") (.leaf "bar"),
                                    Participants := [] } }
      = .ok { Data := .or (.leaf "foo") (.leaf "bar"), Participants := [] } ∧
    UnpackPolicy { Id := 1, Name := "test policy", Policy := .genesisState }
      = .error .unknownPolicyType :=
  ⟨(c6_pack_unpack_roundtrip 1 "test policy"
      { Data := .or (.leaf "foo") (.leaf "bar"), Participants := [] }).1,
    (c6_pack_unpack_roundtrip 1 "test policy"
      { Data := .or (.leaf "foo") (.leaf "bar"), Participants := [] }).2.2
      .genesisState (fun _ h => PackedValue.noConfusion h)⟩

/-- The policy expression `foo OR bar` of the test, with its two participants. -/
def fooOrBarPolicy : BlackbirdPolicy :=
  { Data := .or (.leaf "foo") (.leaf "bar"),
    Participants := [⟨"foo", "qredoXXXXXXX"⟩, ⟨"bar", "qredoYYYYYYY"⟩] }

/-- C7: `Verify` on the expression `foo OR bar` succeeds for approver set
`{foo}` and for `{bar}`, and fails with PolicyNotSatisfied for `{baz}`; in
general `Verify` succeeds exactly when the expression evaluates true after
substituting the abbreviation at each leaf with its membership in the approver
set. -/
theorem c7_verify_or (p : BlackbirdPolicy) (approvers : List String)
    (payload : List Nat) :
    fooOrBarPolicy.Verify ["foo"] [] = .ok () ∧
    fooOrBarPolicy.Verify ["bar"] [] = .ok () ∧
    fooOrBarPolicy.Verify ["baz"] [] = .error .policyNotSatisfied ∧
    (p.Verify approvers payload = .ok () ↔ p.Data.evalWith approvers = true) := by
  refine ⟨by decide, by decide, by decide, ?_⟩
  unfold BlackbirdPolicy.Verify
  by_cases h : p.Data.evalWith approvers
  · simp [h]
  · simp [h]
